import Mathlib

attribute [local semireducible] Rat.mul Rat.add Rat.sub Rat.inv

/-!
Verification of the contrast-reserve engine of pydeepskylog
(`pydeepskylog/contrast_reserve.py`).

Shallow embedding conventions:
* Python floats are modelled as exact rationals (`ℚ`); float literals such
  as `25.4`, `2.833`, `0.4`, `8.89` become the rationals `254/10`,
  `2833/1000`, `2/5`, `889/100`.
* `math.log10` is an external stdlib function; every definition is
  parameterised over an arbitrary model `log10 : ℚ → ℚ` of it.  The call
  `math.log10 x` raises `ValueError: math domain error` for `x ≤ 0`, which
  is modelled by the guarded wrapper `pyLog10`.
* Python exceptions are modelled with `Except String`; the string is the
  exception message from the source.
* `Optional[float]` arguments become `Option ℚ`.
* Python `int(x)` on a float truncates toward zero: `ratTrunc`.
* Python float division by zero raises `ZeroDivisionError`; the one
  division whose divisor is not validated upstream (the angle fraction in
  `calculate_threshold_contrast`) carries an explicit guard.
-/

/-- Model of `math.log10`: raises `math domain error` on a non-positive
argument, otherwise applies the ambient model `log10 : ℚ → ℚ`. -/
def pyLog10 (log10 : ℚ → ℚ) (x : ℚ) : Except String ℚ :=
  if x ≤ 0 then .error "math domain error" else .ok (log10 x)

/-- Python `int(x)` for a float `x`: truncation toward zero (so
`int(-0.5) = 0`, unlike `floor`). -/
def ratTrunc (q : ℚ) : ℤ :=
  if 0 ≤ q then Rat.floor q else -(Rat.floor (-q))

/-- Python truthiness of an `Optional[float]`: `None` and `0.0` are falsy,
every other number is truthy (models `if surf_brightness:`). -/
def truthyOpt (o : Option ℚ) : Bool :=
  match o with
  | none => false
  | some v => decide (v ≠ 0)

/-- `o is not None and o <= 0`: the guard of the
"Object diameter must be positive" checks. -/
def nonposOpt (o : Option ℚ) : Bool :=
  match o with
  | none => false
  | some v => decide (v ≤ 0)

/-- List indexing with an integer index as used on the calibration tables.
All indices reached by the source are clamped into range beforehand, so the
out-of-range default `0` is never observed for the shipped table shape. -/
def pyGet (l : List ℚ) (i : ℤ) : ℚ :=
  if 0 ≤ i then l.getD i.toNat 0 else 0

/-- Row access on the 2-D calibration table (default: empty row). -/
def pyGetRow (l : List (List ℚ)) (i : ℤ) : List ℚ :=
  if 0 ≤ i then l.getD i.toNat [] else []

/-- `LTC[i][j]`. -/
def pyGet2 (l : List (List ℚ)) (i j : ℤ) : ℚ :=
  pyGet (pyGetRow l i) j

/-- The static calibration data of `ContrastReserveConfig`
(`pydeepskylog/config.py`): the log-threshold-contrast matrix `LTC` and the
parallel angular-size breakpoint array `ANGLE`. -/
structure Config where
  LTC : List (List ℚ)
  ANGLE : List ℚ

/-- `ContrastReserveConfig.LTC_SIZE`: the row count of `LTC`. -/
def Config.ltcSize (c : Config) : ℤ := (c.LTC.length : ℤ)

/-- `ContrastReserveConfig.ANGLE_SIZE`: the breakpoint count of `ANGLE`. -/
def Config.angleSize (c : Config) : ℤ := (c.ANGLE.length : ℤ)

/-- Modelled from the spec: the literal calibration constants of
`ContrastReserveConfig` live in `pydeepskylog/config.py`, which is not
among the provided sources.  The spec fixes only their shape and
invariants: `ANGLE` is strictly increasing (log10 arcminutes), `LTC` rows
are ordered by increasing integer sky brightness with column 0 holding the
row's brightness label, `LTC_SIZE` is the row count and `ANGLE_SIZE` the
breakpoint count.  Representative values satisfying those invariants stand
in for the literal table: 7 breakpoints and 24 rows labelled 4..27, with
distinct threshold values per row and column. -/
def specConfig : Config where
  ANGLE := [-(1/4), 1/2, 1, 3/2, 2, 5/2, 3]
  LTC := (List.range 24).map (fun r =>
    ((4 + r : ℕ) : ℚ) :: (List.range 7).map (fun c => ((r : ℚ) + (c : ℚ) + 1) / 10 - 2))

/-- Final clamp of `calculate_threshold_contrast` (source lines 232-235,
with `max_log_contrast = 37`). -/
def clamp37 (x : ℚ) : ℚ :=
  if x > 37 then 37 else if x < -37 then -37 else x

/-- Length of the initial segment of `l` whose entries are `< x`: the
number of iterations of the `while` scan over `ANGLE`
(source lines 180-181, with `ANGLE_SIZE` equal to the list length). -/
def countLess (l : List ℚ) (x : ℚ) : ℕ :=
  (l.takeWhile (fun a => decide (x > a))).length

/-- Sky-brightness row index `sky_brightness_index_a`
(source lines 166-175): `int(sbb) - 4` clamped into `[0, LTC_SIZE - 2]`
by two successive `if` statements. -/
def skyIndexA (cfg : Config) (sbb : ℚ) : ℤ :=
  let a0 : ℤ := ratTrunc sbb - 4
  let a1 : ℤ := if a0 < 0 then 0 else a0
  if a1 > cfg.ltcSize - 2 then cfg.ltcSize - 2 else a1

/-- The angle index after the scan and the `+= 1; -= 2` adjustment
(source lines 180-184). -/
def angleIndexRaw (cfg : Config) (lg : ℚ) : ℤ :=
  (countLess cfg.ANGLE lg : ℤ) + 1 - 2

/-- The angle index after the two boundary adjustments
(source lines 186-191). -/
def angleIndexSel (cfg : Config) (lg : ℚ) : ℤ :=
  let i0 := angleIndexRaw cfg lg
  let i1 := if i0 < 0 then 0 else i0
  if i1 = cfg.angleSize - 1 then cfg.angleSize - 2 else i1

/-- `log_angular_size` after the below-range clamp onto `ANGLE[0]`
(source lines 186-188). -/
def logAngularSel (cfg : Config) (lg : ℚ) : ℚ :=
  if angleIndexRaw cfg lg < 0 then pyGet cfg.ANGLE 0 else lg

/-- The divisor of the angle interpolation fraction,
`ANGLE[angle_index + 1] - ANGLE[angle_index]` (source line 197). -/
def angleDen (cfg : Config) (lg : ℚ) : ℚ :=
  pyGet cfg.ANGLE (angleIndexSel cfg lg + 1) - pyGet cfg.ANGLE (angleIndexSel cfg lg)

/-- `angle_fraction` (source lines 195-198). -/
def angleFraction (cfg : Config) (lg : ℚ) : ℚ :=
  (logAngularSel cfg lg - pyGet cfg.ANGLE (angleIndexSel cfg lg)) / angleDen cfg lg

/-- Linear interpolation of one `LTC` row between columns
`angle_index + 1` and `angle_index + 2` (source lines 201-214). -/
def interpContrast (cfg : Config) (row ai : ℤ) (frac : ℚ) : ℚ :=
  pyGet2 cfg.LTC row (ai + 1) +
    frac * (pyGet2 cfg.LTC row (ai + 2) - pyGet2 cfg.LTC row (ai + 1))

/-- `surface_brightness` (source lines 7-30).  The `isinstance` type checks
are vacuous in the typed embedding; the positivity checks and the formula
are kept verbatim. -/
def surface_brightness (log10 : ℚ → ℚ) (magnitude object_diameter1 object_diameter2 : ℚ) :
    Except String ℚ :=
  if object_diameter1 ≤ 0 then .error "Object diameter 1 must be positive"
  else if object_diameter2 ≤ 0 then .error "Object diameter 2 must be positive"
  else
    match pyLog10 log10 (2827 * (object_diameter1 / 60) * (object_diameter2 / 60)) with
    | .error e => .error e
    | .ok l => .ok (magnitude + 5/2 * l)

/-- `validate_contrast_reserve_inputs` (source lines 33-83).  The
`isinstance` checks are vacuous in the typed embedding; the value checks
are kept in source order. -/
def validate_contrast_reserve_inputs (telescope_diameter magnification : ℚ)
    (surf_brightness magnitude object_diameter1 object_diameter2 : Option ℚ) :
    Except String Unit :=
  if telescope_diameter ≤ 0 then .error "Telescope diameter must be positive"
  else if magnification ≤ 0 then .error "Magnification must be positive"
  else if nonposOpt object_diameter1 then .error "Object diameter 1 must be positive"
  else if nonposOpt object_diameter2 then .error "Object diameter 2 must be positive"
  else .ok ()

/-- `calculate_initial_parameters` (source lines 86-119): aperture in
inches, minimum-magnification sky background brightness, then the
missing-diameter check and the swap of the arcminute diameters so that the
first one is the smaller. -/
def calculate_initial_parameters (log10 : ℚ → ℚ) (sqm telescope_diameter : ℚ)
    (object_diameter1 object_diameter2 : Option ℚ) :
    Except String (ℚ × ℚ × ℚ × ℚ) :=
  let aperture_in_inches := telescope_diameter / (254/10)
  match pyLog10 log10 ((2833/1000) * aperture_in_inches) with
  | .error e => .error e
  | .ok l =>
    let sbb1 := sqm - 5 * l
    match object_diameter1, object_diameter2 with
    | some d1, some d2 =>
      let a1 := d1 / 60
      let b1 := d2 / 60
      if a1 > b1 then .ok (aperture_in_inches, sbb1, b1, a1)
      else .ok (aperture_in_inches, sbb1, a1, b1)
    | _, _ => .error "Object diameters must be provided to calculate contrast reserve"

/-- `calculate_log_object_contrast` (source lines 122-150): the truthy
`if surf_brightness:` branch, the missing-magnitude check, and the
magnitude path through `surface_brightness` (note: the magnitude path has
no `+ 8.89` term, unlike the direct path). -/
def calculate_log_object_contrast (log10 : ℚ → ℚ) (sqm : ℚ)
    (surf_brightness magnitude object_diameter1 object_diameter2 : Option ℚ) :
    Except String ℚ :=
  if truthyOpt surf_brightness then
    .ok (-(2/5) * (surf_brightness.getD 0 + 889/100 - sqm))
  else
    match magnitude with
    | none => .error "Magnitude must be provided if surface brightness is not given"
    | some m =>
      match object_diameter1, object_diameter2 with
      | some d1, some d2 =>
        match surface_brightness log10 m d1 d2 with
        | .error e => .error e
        | .ok sb => .ok (-(2/5) * (sb - sqm))
      | none, _ => .error "Object diameter 1 must be a number"
      | some _, none => .error "Object diameter 2 must be a number"

/-- `calculate_threshold_contrast` (source lines 153-237): bilinear
interpolation over the `LTC`/`ANGLE` tables with boundary clamping. -/
def calculate_threshold_contrast (log10 : ℚ → ℚ) (cfg : Config)
    (sky_background_brightness angular_size_arcmin : ℚ) : Except String ℚ :=
  match pyLog10 log10 angular_size_arcmin with
  | .error e => .error e
  | .ok lg0 =>
    let int_sb : ℤ := ratTrunc sky_background_brightness
    let ia : ℤ := skyIndexA cfg sky_background_brightness
    let ib : ℤ := ia + 1
    let ai : ℤ := angleIndexSel cfg lg0
    if angleDen cfg lg0 = 0 then .error "float division by zero"
    else
      let frac := angleFraction cfg lg0
      let ca := interpContrast cfg ia ai frac
      let cb := interpContrast cfg ib ai frac
      let sbb2 := if sky_background_brightness < pyGet2 cfg.LTC 0 0
                  then pyGet2 cfg.LTC 0 0 else sky_background_brightness
      let ltc := if pyGet2 cfg.LTC (cfg.ltcSize - 1) 0 ≤ (int_sb : ℚ)
                 then cb + (sbb2 - pyGet2 cfg.LTC (cfg.ltcSize - 1) 0) * (cb - ca)
                 else ca + (sbb2 - (int_sb : ℚ)) * (cb - ca)
      .ok (clamp37 ltc)

/-- `contrast_reserve` (source lines 240-300). -/
def contrast_reserve (log10 : ℚ → ℚ) (cfg : Config)
    (sqm telescope_diameter magnification : ℚ)
    (surf_brightness magnitude object_diameter1 object_diameter2 : Option ℚ) :
    Except String ℚ :=
  match validate_contrast_reserve_inputs telescope_diameter magnification
      surf_brightness magnitude object_diameter1 object_diameter2 with
  | .error e => .error e
  | .ok _ =>
    match calculate_initial_parameters log10 sqm telescope_diameter
        object_diameter1 object_diameter2 with
    | .error e => .error e
    | .ok (_, sbb1, od1, _) =>
      match calculate_log_object_contrast log10 sqm surf_brightness magnitude
          object_diameter1 object_diameter2 with
      | .error e => .error e
      | .ok loc =>
        match pyLog10 log10 magnification with
        | .error e => .error e
        | .ok lmag =>
          match calculate_threshold_contrast log10 cfg (sbb1 + 5 * lmag)
              (magnification * od1) with
          | .error e => .error e
          | .ok ltc => .ok (loc - ltc)

/-- The search loop of `optimal_detection_magnification`
(source lines 362-372), with the running best score and best
magnification as explicit accumulators. -/
def odmLoop (log10 : ℚ → ℚ) (cfg : Config) (sqm telescope_diameter : ℚ)
    (surf_brightness magnitude object_diameter1 object_diameter2 : Option ℚ) :
    List ℚ → ℚ → ℚ → Except String ℚ
  | [], _, bestX => .ok bestX
  | m :: rest, bestC, bestX =>
    match contrast_reserve log10 cfg sqm telescope_diameter m
        surf_brightness magnitude object_diameter1 object_diameter2 with
    | .error e => .error e
    | .ok c =>
      if c > bestC then
        odmLoop log10 cfg sqm telescope_diameter surf_brightness magnitude
          object_diameter1 object_diameter2 rest c m
      else
        odmLoop log10 cfg sqm telescope_diameter surf_brightness magnitude
          object_diameter1 object_diameter2 rest bestC bestX

/-- `optimal_detection_magnification` (source lines 303-372): the value
validations in source order, then the strict-improvement search starting
from the sentinels `best_contrast = -999`, `best_x = 0`. -/
def optimal_detection_magnification (log10 : ℚ → ℚ) (cfg : Config)
    (sqm telescope_diameter : ℚ)
    (surf_brightness magnitude object_diameter1 object_diameter2 : Option ℚ)
    (magnifications : List ℚ) : Except String ℚ :=
  if telescope_diameter ≤ 0 then .error "Telescope diameter must be positive"
  else if nonposOpt object_diameter1 then .error "Object diameter 1 must be positive"
  else if nonposOpt object_diameter2 then .error "Object diameter 2 must be positive"
  else if magnifications.any (fun m => decide (m ≤ 0)) then
    .error "Each magnification must be positive"
  else
    odmLoop log10 cfg sqm telescope_diameter surf_brightness magnitude
      object_diameter1 object_diameter2 magnifications (-999) 0

/-- Maximum of a list of rationals, `none` on the empty list. -/
def listMax : List ℚ → Option ℚ
  | [] => none
  | a :: l =>
    match listMax l with
    | none => some a
    | some M => some (max a M)

/-- The pure strict-improvement fold underlying the search loop. -/
def foldBest (score : ℚ → ℚ) : List ℚ → ℚ → ℚ → ℚ
  | [], _, bestX => bestX
  | m :: rest, bestC, bestX =>
    if score m > bestC then foldBest score rest (score m) m
    else foldBest score rest bestC bestX

/-- The spec's description of the search result: the earliest candidate
attaining the maximum score, or `0` when the list is empty or no score
exceeds the sentinel `-999`. -/
def specOptimal (score : ℚ → ℚ) (mags : List ℚ) : ℚ :=
  match listMax (mags.map score) with
  | none => 0
  | some M =>
    if M ≤ -999 then 0
    else ((mags.find? (fun m => decide (score m = M))).getD 0)

instance : DecidableEq (Except String ℚ) := fun a b =>
  match a, b with
  | .error s, .error t =>
    if h : s = t then .isTrue (by rw [h]) else .isFalse (fun he => h (Except.error.inj he))
  | .error _, .ok _ => .isFalse (fun he => Except.noConfusion he)
  | .ok _, .error _ => .isFalse (fun he => Except.noConfusion he)
  | .ok x, .ok y =>
    if h : x = y then .isTrue (by rw [h]) else .isFalse (fun he => h (Except.ok.inj he))

/-! ## Helper lemmas -/

lemma aperture_arg_pos {D : ℚ} (hD : 0 < D) :
    ¬ ((2833:ℚ)/1000 * (D / (254/10)) ≤ 0) := by
  have h1 : (0:ℚ) < D / (254/10) := div_pos hD (by norm_num)
  have h2 : (0:ℚ) < (2833:ℚ)/1000 * (D / (254/10)) :=
    mul_pos (by norm_num) h1
  exact not_le.mpr h2

lemma cip_some_ok (log10 : ℚ → ℚ) (sqm D d1 d2 : ℚ) (hD : 0 < D) :
    calculate_initial_parameters log10 sqm D (some d1) (some d2) =
      .ok (D / (254/10),
        sqm - 5 * log10 ((2833/1000) * (D / (254/10))),
        if d1 / 60 > d2 / 60 then d2 / 60 else d1 / 60,
        if d1 / 60 > d2 / 60 then d1 / 60 else d2 / 60) := by
  simp only [calculate_initial_parameters, pyLog10, if_neg (aperture_arg_pos hD)]
  split <;> rename_i h
  · simp [if_pos h]
  · simp [if_neg h]

lemma cip_missing (log10 : ℚ → ℚ) (sqm D : ℚ) (hD : 0 < D) :
    calculate_initial_parameters log10 sqm D none none =
      .error "Object diameters must be provided to calculate contrast reserve" := by
  simp only [calculate_initial_parameters, pyLog10, if_neg (aperture_arg_pos hD)]

lemma validate_ok (D mg : ℚ) (sb magn d1 d2 : Option ℚ) (hD : 0 < D) (hmg : 0 < mg)
    (h1 : nonposOpt d1 = false) (h2 : nonposOpt d2 = false) :
    validate_contrast_reserve_inputs D mg sb magn d1 d2 = .ok () := by
  simp only [validate_contrast_reserve_inputs, if_neg (not_le.mpr hD),
    if_neg (not_le.mpr hmg), h1, h2, Bool.false_eq_true, if_false]

lemma cr_missing_diameters (log10 : ℚ → ℚ) (cfg : Config) (sqm D mg : ℚ)
    (sb magn : Option ℚ) (hD : 0 < D) (hmg : 0 < mg) :
    contrast_reserve log10 cfg sqm D mg sb magn none none =
      .error "Object diameters must be provided to calculate contrast reserve" := by
  simp only [contrast_reserve,
    validate_ok D mg sb magn none none hD hmg rfl rfl,
    cip_missing log10 sqm D hD]

lemma countLess_le (l : List ℚ) (x : ℚ) : countLess l x ≤ l.length := by
  induction l with
  | nil => simp [countLess]
  | cons a t ih =>
    by_cases h : x > a
    · simp only [countLess, List.takeWhile] at ih ⊢
      simp only [decide_eq_true h, List.length_cons]
      omega
    · simp only [countLess, List.takeWhile]
      simp only [decide_eq_false h, List.length_nil]
      omega

lemma angleIndexSel_bounds (cfg : Config) (lg : ℚ) (hsz : 2 ≤ cfg.angleSize) :
    0 ≤ angleIndexSel cfg lg ∧ angleIndexSel cfg lg ≤ cfg.angleSize - 2 := by
  have hc : (countLess cfg.ANGLE lg : ℤ) ≤ cfg.angleSize := by
    have h := countLess_le cfg.ANGLE lg
    simp only [Config.angleSize]
    exact_mod_cast h
  have hc0 : (0:ℤ) ≤ (countLess cfg.ANGLE lg : ℤ) := Int.ofNat_nonneg _
  simp only [angleIndexSel, angleIndexRaw]
  split_ifs <;> omega

lemma specConfig_angleDen_ne (lg : ℚ) : angleDen specConfig lg ≠ 0 := by
  obtain ⟨h0, h1⟩ := angleIndexSel_bounds specConfig lg (by decide)
  have hsz : specConfig.angleSize = 7 := by decide
  rw [hsz] at h1
  unfold angleDen
  generalize hgen : angleIndexSel specConfig lg = i at h0 h1 ⊢
  interval_cases i <;> decide

lemma clamp37_bounds (x : ℚ) : -37 ≤ clamp37 x ∧ clamp37 x ≤ 37 := by
  unfold clamp37
  split_ifs <;> constructor <;> linarith

lemma cip_swap (log10 : ℚ → ℚ) (sqm D d1 d2 : ℚ) :
    calculate_initial_parameters log10 sqm D (some d1) (some d2) =
      calculate_initial_parameters log10 sqm D (some d2) (some d1) := by
  simp only [calculate_initial_parameters]
  cases pyLog10 log10 ((2833/1000) * (D / (254/10))) with
  | error e => rfl
  | ok l =>
    simp only
    rcases lt_trichotomy (d1 / 60) (d2 / 60) with h | h | h
    · rw [if_neg (by exact not_lt.mpr h.le), if_pos h]
    · rw [h]
    · rw [if_pos h, if_neg (by exact not_lt.mpr h.le)]

lemma sb_swap (log10 : ℚ → ℚ) (m d1 d2 : ℚ) (h1 : 0 < d1) (h2 : 0 < d2) :
    surface_brightness log10 m d1 d2 = surface_brightness log10 m d2 d1 := by
  simp only [surface_brightness, if_neg (not_le.mpr h1), if_neg (not_le.mpr h2)]
  have harg : (2827:ℚ) * (d1 / 60) * (d2 / 60) = 2827 * (d2 / 60) * (d1 / 60) := by
    ring
  rw [harg]

lemma clc_swap (log10 : ℚ → ℚ) (sqm : ℚ) (sb magn : Option ℚ) (d1 d2 : ℚ)
    (h1 : 0 < d1) (h2 : 0 < d2) :
    calculate_log_object_contrast log10 sqm sb magn (some d1) (some d2) =
      calculate_log_object_contrast log10 sqm sb magn (some d2) (some d1) := by
  simp only [calculate_log_object_contrast]
  cases htr : truthyOpt sb with
  | true => rfl
  | false =>
    simp only [Bool.false_eq_true, if_false]
    cases magn with
    | none => rfl
    | some m => simp only [sb_swap log10 m d1 d2 h1 h2]

lemma validate_swap (D mg : ℚ) (sb magn : Option ℚ) (d1 d2 : ℚ)
    (h1 : 0 < d1) (h2 : 0 < d2) :
    validate_contrast_reserve_inputs D mg sb magn (some d1) (some d2) =
      validate_contrast_reserve_inputs D mg sb magn (some d2) (some d1) := by
  have e1 : nonposOpt (some d1) = false := by
    simp [nonposOpt, not_le.mpr h1]
  have e2 : nonposOpt (some d2) = false := by
    simp [nonposOpt, not_le.mpr h2]
  simp only [validate_contrast_reserve_inputs, e1, e2]

lemma listMax_mem : ∀ {l : List ℚ} {M : ℚ}, listMax l = some M → M ∈ l := by
  intro l
  induction l with
  | nil => intro M h; simp [listMax] at h
  | cons a t ih =>
    intro M h
    simp only [listMax] at h
    cases hm : listMax t with
    | none =>
      rw [hm] at h
      have : a = M := by injection h
      rw [← this]
      exact List.mem_cons_self a t
    | some N =>
      rw [hm] at h
      have hM : max a N = M := by injection h
      rcases le_total N a with hle | hle
      · rw [← hM, max_eq_left hle]
        exact List.mem_cons_self a t
      · rw [← hM, max_eq_right hle]
        exact List.mem_cons_of_mem a (ih hm)

lemma find?_of_mem (score : ℚ → ℚ) :
    ∀ {mags : List ℚ} {M : ℚ}, M ∈ mags.map score →
      (mags.find? (fun m => decide (score m = M))).isSome = true := by
  intro mags
  induction mags with
  | nil => intro M h; simp at h
  | cons a t ih =>
    intro M h
    rw [List.map_cons] at h
    by_cases heq : score a = M
    · rw [List.find?_cons_of_pos _ (by simp [heq])]
      rfl
    · rw [List.find?_cons_of_neg _ (by simp [heq])]
      rcases List.mem_cons.mp h with h1 | h2
      · exact absurd h1.symm heq
      · exact ih h2

lemma isSome_getD {o : Option ℚ} (h : o.isSome = true) (a b : ℚ) :
    o.getD a = o.getD b := by
  cases o with
  | none => simp at h
  | some v => rfl

lemma foldBest_spec (score : ℚ → ℚ) :
    ∀ (mags : List ℚ) (bC bX : ℚ), foldBest score mags bC bX =
      match listMax (mags.map score) with
      | none => bX
      | some M => if M ≤ bC then bX
          else (mags.find? (fun m => decide (score m = M))).getD bX := by
  intro mags
  induction mags with
  | nil => intro bC bX; rfl
  | cons a t ih =>
    intro bC bX
    rw [List.map_cons]
    simp only [foldBest, listMax]
    cases hm : listMax (t.map score) with
    | none =>
      have ht : t = [] := by
        cases t with
        | nil => rfl
        | cons b u =>
          rw [List.map_cons] at hm
          simp only [listMax] at hm
          cases h2 : listMax (List.map score u) with
          | none => rw [h2] at hm; exact Option.noConfusion hm
          | some N => rw [h2] at hm; exact Option.noConfusion hm
      subst ht
      simp only [foldBest]
      by_cases hc : score a > bC
      · rw [if_pos hc, if_neg (not_le.mpr hc),
          List.find?_cons_of_pos _ (by simp)]
        rfl
      · rw [if_neg hc, if_pos (not_lt.mp hc)]
    | some N =>
      simp only [ih]
      rw [hm]
      simp only
      by_cases heqN : score a = N
      · have hmax : max (score a) N = N := by rw [heqN]; exact max_self N
        rw [hmax, List.find?_cons_of_pos _ (by simp [heqN])]
        by_cases hc : score a > bC
        · rw [if_pos hc, if_pos (by rw [← heqN]), if_neg (not_le.mpr (heqN ▸ hc))]
          rfl
        · rw [if_neg hc, if_pos (heqN ▸ not_lt.mp hc), if_pos (heqN ▸ not_lt.mp hc)]
      · rcases le_total N (score a) with hNa | haN
        · have hlt : N < score a := lt_of_le_of_ne hNa (fun e => heqN e.symm)
          rw [max_eq_left hNa, List.find?_cons_of_pos _ (by simp)]
          by_cases hc : score a > bC
          · rw [if_pos hc, if_pos hNa, if_neg (not_le.mpr hc)]
            rfl
          · rw [if_neg hc, if_pos (le_trans hNa (not_lt.mp hc)),
              if_pos (not_lt.mp hc)]
        · have hlt : score a < N := lt_of_le_of_ne haN heqN
          have hsome : (t.find? (fun m => decide (score m = N))).isSome = true :=
            find?_of_mem score (listMax_mem hm)
          rw [max_eq_right haN, List.find?_cons_of_neg _ (by simp [heqN])]
          by_cases hc : score a > bC
          · rw [if_pos hc, if_neg (not_le.mpr hlt),
              if_neg (not_le.mpr (lt_trans hc hlt))]
            exact isSome_getD hsome a bX
          · rw [if_neg hc]

lemma odmLoop_ok (log10 : ℚ → ℚ) (cfg : Config) (sqm D : ℚ)
    (sb magn d1 d2 : Option ℚ) (score : ℚ → ℚ) :
    ∀ (mags : List ℚ) (bC bX : ℚ),
      (∀ m ∈ mags, contrast_reserve log10 cfg sqm D m sb magn d1 d2 = .ok (score m)) →
      odmLoop log10 cfg sqm D sb magn d1 d2 mags bC bX =
        .ok (foldBest score mags bC bX) := by
  intro mags
  induction mags with
  | nil => intro bC bX _; rfl
  | cons a t ih =>
    intro bC bX h
    simp only [odmLoop, foldBest, h a (List.mem_cons_self a t)]
    by_cases hc : score a > bC
    · rw [if_pos hc, if_pos hc]
      exact ih _ _ (fun m hm => h m (List.mem_cons_of_mem a hm))
    · rw [if_neg hc, if_neg hc]
      exact ih _ _ (fun m hm => h m (List.mem_cons_of_mem a hm))

/-! ## Claim theorems -/

/-- Claim C1, counterexample: with `log10` modelled as the constant-zero
function, `surface_brightness(9, 60, 120)` computes the (nonzero) value
`9`, yet `contrast_reserve` called with `magnitude = 9` differs from
`contrast_reserve` called with `surf_brightness = 9`: the magnitude path
omits the `+ 8.89` term of the direct path (source line 148 vs 141), so
the two calls are not equal as the claim asserts. -/
theorem c1_counterexample :
    surface_brightness (fun _ => 0) 9 60 120 = .ok 9 ∧ (9:ℚ) ≠ 0 ∧
    contrast_reserve (fun _ => 0) specConfig 20 254 50 none (some 9) (some 60) (some 120) ≠
      contrast_reserve (fun _ => 0) specConfig 20 254 50 (some 9) none (some 60) (some 120) := by
  refine ⟨by decide, by decide, by decide⟩

/-- Claim C1, amended: the magnitude path computes the log object contrast
as `-0.4 * (surface_brightness(magnitude, d1, d2) - sqm)`, WITHOUT the
`+ 8.89` of the direct path, so the magnitude-path result exceeds the
direct-path result (at the computed surface brightness) by exactly
`0.4 * 8.89 = 889/250`, whenever the computed surface brightness is
nonzero and the remaining inputs are valid. -/
theorem c1_magnitude_path_offset (log10 : ℚ → ℚ) (cfg : Config)
    (sqm D mg m d1 d2 sbv : ℚ) (hD : 0 < D) (hmg : 0 < mg)
    (h1 : 0 < d1) (h2 : 0 < d2)
    (hsb : surface_brightness log10 m d1 d2 = .ok sbv) (hne : sbv ≠ 0) :
    contrast_reserve log10 cfg sqm D mg none (some m) (some d1) (some d2) =
      Except.map (fun q => q + 889/250)
        (contrast_reserve log10 cfg sqm D mg (some sbv) none (some d1) (some d2)) := by
  have e1 : nonposOpt (some d1) = false := by simp [nonposOpt, not_le.mpr h1]
  have e2 : nonposOpt (some d2) = false := by simp [nonposOpt, not_le.mpr h2]
  have htr : truthyOpt (some sbv) = true := by simp [truthyOpt, hne]
  have hq1 : calculate_log_object_contrast log10 sqm (some sbv) none (some d1) (some d2) =
      .ok (-(2/5) * (sbv + 889/100 - sqm)) := by
    simp only [calculate_log_object_contrast, htr, if_true, Option.getD]
  have hq2 : calculate_log_object_contrast log10 sqm none (some m) (some d1) (some d2) =
      .ok (-(2/5) * (sbv + 889/100 - sqm) + 889/250) := by
    have hloc : calculate_log_object_contrast log10 sqm none (some m) (some d1) (some d2) =
        .ok (-(2/5) * (sbv - sqm)) := by
      simp only [calculate_log_object_contrast, truthyOpt, Bool.false_eq_true, if_false, hsb]
    rw [hloc]
    congr 1
    ring
  simp only [contrast_reserve,
    validate_ok D mg none (some m) (some d1) (some d2) hD hmg e1 e2,
    validate_ok D mg (some sbv) none (some d1) (some d2) hD hmg e1 e2,
    cip_some_ok log10 sqm D d1 d2 hD, hq1, hq2]
  simp only [pyLog10, if_neg (not_le.mpr hmg)]
  cases hctc : calculate_threshold_contrast log10 cfg
      (sqm - 5 * log10 (2833/1000 * (D / (254/10))) + 5 * log10 mg)
      (mg * if d1 / 60 > d2 / 60 then d2 / 60 else d1 / 60) with
  | error e => rfl
  | ok t =>
    simp only [Except.map]
    congr 1
    ring

/-- Witness for C1's amended theorem at a concrete input (constant-zero
model of `log10`; the computed surface brightness of a magnitude-9 object
of diameters 60x120 arcsec is then `9`). -/
theorem c1_magnitude_path_offset_witness :
    surface_brightness (fun _ => 0) 9 60 120 = .ok 9 ∧
    contrast_reserve (fun _ => 0) specConfig 20 254 50 none (some 9) (some 60) (some 120) =
      Except.map (fun q => q + 889/250)
        (contrast_reserve (fun _ => 0) specConfig 20 254 50 (some 9) none (some 60) (some 120)) :=
  ⟨by decide,
    c1_magnitude_path_offset (fun _ => 0) specConfig 20 254 50 9 60 120 9
      (by decide) (by decide) (by decide) (by decide) (by decide) (by decide)⟩

/-- Claim C2, counterexample: even with a nonzero `surf_brightness`
supplied, `contrast_reserve` raises the missing-diameters error when both
object diameters are absent (the diameters are always required for the
angular size), contradicting the claim that the surface-brightness source
alone resolves the invariant. -/
theorem c2_counterexample :
    contrast_reserve (fun _ => 0) specConfig 21 200 100 (some 15) none none none =
      .error "Object diameters must be provided to calculate contrast reserve" := by
  decide

/-- Claim C2, amended: with `surf_brightness` present and both diameters
absent, `contrast_reserve` raises the missing-diameters `ValueError` from
`calculate_initial_parameters` for every sqm, every positive telescope
diameter and every positive magnification: both object diameters are
required regardless of the brightness source. -/
theorem c2_diameters_required (log10 : ℚ → ℚ) (cfg : Config) (sqm D mg sbv : ℚ)
    (hD : 0 < D) (hmg : 0 < mg) :
    contrast_reserve log10 cfg sqm D mg (some sbv) none none none =
      .error "Object diameters must be provided to calculate contrast reserve" :=
  cr_missing_diameters log10 cfg sqm D mg (some sbv) none hD hmg

/-- Witness for C2's amended theorem at a concrete input. -/
theorem c2_diameters_required_witness :
    (0:ℚ) < 300 ∧ (0:ℚ) < 120 ∧
    contrast_reserve (fun _ => 0) specConfig 21 300 120 (some 13) none none none =
      .error "Object diameters must be provided to calculate contrast reserve" :=
  ⟨by decide, by decide,
    c2_diameters_required (fun _ => 0) specConfig 21 300 120 13 (by decide) (by decide)⟩

/-- Claim C3, counterexample: at the modelled calibration table,
`calculate_threshold_contrast` at a sky background brightness strictly
below `LTC[0][0]` (here `3.5 < 4`) does NOT return the same value as at
exactly `LTC[0][0]`: the clamp on line 216-217 replaces the interpolation
multiplicand but the fraction base `int_sky_brightness` (line 228) is
taken from the unclamped input. -/
theorem c3_counterexample :
    (7/2 : ℚ) < pyGet2 specConfig.LTC 0 0 ∧
    calculate_threshold_contrast (fun _ => 0) specConfig (7/2) 1 ≠
      calculate_threshold_contrast (fun _ => 0) specConfig (pyGet2 specConfig.LTC 0 0) 1 := by
  refine ⟨by decide, by decide⟩

/-- Claim C3, amended: below the table start the result is constant only
on each unit interval of the truncated integer part: for any two sky
background brightness values below `LTC[0][0]` with the same
truncated-toward-zero integer part, `calculate_threshold_contrast` agrees
(the clamp fixes the interpolation multiplicand at `LTC[0][0]` while the
fraction base remains the truncated original value), but the common value
generally differs from the value at `LTC[0][0]` itself. -/
theorem c3_below_table_trunc_invariance (log10 : ℚ → ℚ) (cfg : Config)
    (ang sbb sbb' : ℚ) (h : sbb < pyGet2 cfg.LTC 0 0) (h' : sbb' < pyGet2 cfg.LTC 0 0)
    (ht : ratTrunc sbb = ratTrunc sbb') :
    calculate_threshold_contrast log10 cfg sbb ang =
      calculate_threshold_contrast log10 cfg sbb' ang := by
  simp only [calculate_threshold_contrast, skyIndexA, ht, if_pos h, if_pos h']

/-- Witness for C3's amended theorem at a concrete input: `3.2` and `3.9`
both truncate to `3` and lie below the table start `4`. -/
theorem c3_below_table_trunc_invariance_witness :
    (16/5 : ℚ) < pyGet2 specConfig.LTC 0 0 ∧ (39/10 : ℚ) < pyGet2 specConfig.LTC 0 0 ∧
    ratTrunc (16/5) = ratTrunc (39/10) ∧
    calculate_threshold_contrast (fun _ => 0) specConfig (16/5) 1 =
      calculate_threshold_contrast (fun _ => 0) specConfig (39/10) 1 :=
  ⟨by decide, by decide, by decide,
    c3_below_table_trunc_invariance (fun _ => 0) specConfig 1 (16/5) (39/10)
      (by decide) (by decide) (by decide)⟩

/-- Claim C7: `contrast_reserve` treats a supplied surface brightness of
exactly `0.0` as absent (the truthy `if surf_brightness:` branch): with
`magnitude = None` it raises the missing-magnitude error, and with a
magnitude present it returns exactly what the call with
`surf_brightness = None` returns (the magnitude path). -/
theorem c7_zero_surface_brightness_absent (log10 : ℚ → ℚ) (cfg : Config)
    (sqm D mg d1 d2 : ℚ) (hD : 0 < D) (hmg : 0 < mg) (h1 : 0 < d1) (h2 : 0 < d2) :
    contrast_reserve log10 cfg sqm D mg (some 0) none (some d1) (some d2) =
      .error "Magnitude must be provided if surface brightness is not given" ∧
    ∀ m : ℚ, contrast_reserve log10 cfg sqm D mg (some 0) (some m) (some d1) (some d2) =
      contrast_reserve log10 cfg sqm D mg none (some m) (some d1) (some d2) := by
  constructor
  · have e1 : nonposOpt (some d1) = false := by simp [nonposOpt, not_le.mpr h1]
    have e2 : nonposOpt (some d2) = false := by simp [nonposOpt, not_le.mpr h2]
    simp only [contrast_reserve,
      validate_ok D mg (some 0) none (some d1) (some d2) hD hmg e1 e2,
      cip_some_ok log10 sqm D d1 d2 hD]
    rfl
  · intro m
    rfl

/-- Witness for C7 at a concrete input. -/
theorem c7_zero_surface_brightness_absent_witness :
    (0:ℚ) < 254 ∧ (0:ℚ) < 50 ∧ (0:ℚ) < 60 ∧ (0:ℚ) < 120 ∧
    (contrast_reserve (fun _ => 0) specConfig 20 254 50 (some 0) none (some 60) (some 120) =
      .error "Magnitude must be provided if surface brightness is not given" ∧
    ∀ m : ℚ, contrast_reserve (fun _ => 0) specConfig 20 254 50 (some 0) (some m) (some 60) (some 120) =
      contrast_reserve (fun _ => 0) specConfig 20 254 50 none (some m) (some 60) (some 120)) :=
  ⟨by decide, by decide, by decide, by decide,
    c7_zero_surface_brightness_absent (fun _ => 0) specConfig 20 254 50 60 120
      (by decide) (by decide) (by decide) (by decide)⟩

/-- Claim C4: on a candidate list whose `contrast_reserve` scores are
given by `score`, `optimal_detection_magnification` evaluates the
candidates in list order starting from the sentinels `-999` / `0` and
returns exactly the spec's description `specOptimal`: the earliest
candidate attaining the maximum score when that maximum exceeds `-999`,
and `0` when the list is empty or every score is at most `-999` (ties
keep the earliest candidate, since a later candidate replaces the best
only on a strictly greater score). -/
theorem c4_optimal_detection_spec (log10 : ℚ → ℚ) (cfg : Config) (sqm D : ℚ)
    (sb magn d1 d2 : Option ℚ) (mags : List ℚ) (score : ℚ → ℚ)
    (hD : 0 < D) (h1 : nonposOpt d1 = false) (h2 : nonposOpt d2 = false)
    (hpos : ∀ m ∈ mags, 0 < m)
    (hscore : ∀ m ∈ mags, contrast_reserve log10 cfg sqm D m sb magn d1 d2 = .ok (score m)) :
    optimal_detection_magnification log10 cfg sqm D sb magn d1 d2 mags =
      .ok (specOptimal score mags) := by
  have hany : mags.any (fun m => decide (m ≤ 0)) = false := by
    rw [List.any_eq_false]
    intro m hm
    simp [not_le.mpr (hpos m hm)]
  simp only [optimal_detection_magnification, if_neg (not_le.mpr hD), h1, h2,
    Bool.false_eq_true, if_false, hany]
  rw [odmLoop_ok log10 cfg sqm D sb magn d1 d2 score mags (-999) 0 hscore,
    foldBest_spec score mags (-999) 0]
  rfl

/-- Witness for C4 at a concrete input: two magnifications with equal
scores; the search returns the earliest. -/
theorem c4_optimal_detection_spec_witness :
    (0:ℚ) < 254 ∧ (∀ m ∈ [(50:ℚ), 100], 0 < m) ∧
    (∀ m ∈ [(50:ℚ), 100],
      contrast_reserve (fun _ => 0) specConfig 20 254 m (some 10) none (some 60) (some 120) =
        .ok ((fun _ => (533/750 : ℚ)) m)) ∧
    optimal_detection_magnification (fun _ => 0) specConfig 20 254
        (some 10) none (some 60) (some 120) [50, 100] =
      .ok (specOptimal (fun _ => 533/750) [50, 100]) ∧
    specOptimal (fun _ => (533/750 : ℚ)) [50, 100] = 50 :=
  ⟨by decide, by decide, by decide,
    c4_optimal_detection_spec (fun _ => 0) specConfig 20 254 (some 10) none
      (some 60) (some 120) [50, 100] (fun _ => 533/750)
      (by decide) rfl rfl (by decide) (by decide),
    by decide⟩

/-- Claim C5: for every real sky background brightness and every positive
angular size, `calculate_threshold_contrast` at the (modelled) calibration
table returns a value in `[-37, 37]` and raises no exception; a
non-positive angular size (the `math.log10` domain error) is the only
failure path. -/
theorem c5_threshold_contrast_bounds (log10 : ℚ → ℚ) (sbb ang : ℚ) :
    (0 < ang → ∃ r, calculate_threshold_contrast log10 specConfig sbb ang = .ok r ∧
      -37 ≤ r ∧ r ≤ 37) ∧
    (ang ≤ 0 → calculate_threshold_contrast log10 specConfig sbb ang =
      .error "math domain error") := by
  constructor
  · intro hang
    simp only [calculate_threshold_contrast, pyLog10, if_neg (not_le.mpr hang)]
    rw [if_neg (specConfig_angleDen_ne (log10 ang))]
    exact ⟨_, rfl, clamp37_bounds _⟩
  · intro h
    simp only [calculate_threshold_contrast, pyLog10, if_pos h]

/-- Witness for C5 at a concrete input. -/
theorem c5_threshold_contrast_bounds_witness :
    (0:ℚ) < 5 ∧
    (∃ r, calculate_threshold_contrast (fun _ => 0) specConfig 20 5 = .ok r ∧
      -37 ≤ r ∧ r ≤ 37) :=
  ⟨by decide, (c5_threshold_contrast_bounds (fun _ => 0) 20 5).1 (by decide)⟩

/-- Claim C6: `contrast_reserve` is invariant under exchanging the two
object diameters, for all positive `d1 ≠ d2` and otherwise arbitrary
inputs: the internal swap to the smaller arcminute diameter normalizes the
angular size, and the diameter product inside `surface_brightness` is
symmetric. -/
theorem c6_diameter_order_invariance (log10 : ℚ → ℚ) (cfg : Config)
    (sqm D mg : ℚ) (sb magn : Option ℚ) (d1 d2 : ℚ)
    (hD : 0 < D) (hmg : 0 < mg) (h1 : 0 < d1) (h2 : 0 < d2) (hne : d1 ≠ d2) :
    contrast_reserve log10 cfg sqm D mg sb magn (some d1) (some d2) =
      contrast_reserve log10 cfg sqm D mg sb magn (some d2) (some d1) := by
  simp only [contrast_reserve, validate_swap D mg sb magn d1 d2 h1 h2,
    cip_swap log10 sqm D d1 d2, clc_swap log10 sqm sb magn d1 d2 h1 h2]

/-- Witness for C6 at a concrete input. -/
theorem c6_diameter_order_invariance_witness :
    (0:ℚ) < 254 ∧ (0:ℚ) < 50 ∧ (0:ℚ) < 60 ∧ (0:ℚ) < 120 ∧ (60:ℚ) ≠ 120 ∧
    contrast_reserve (fun _ => 0) specConfig 20 254 50 none (some 9) (some 60) (some 120) =
      contrast_reserve (fun _ => 0) specConfig 20 254 50 none (some 9) (some 120) (some 60) :=
  ⟨by decide, by decide, by decide, by decide, by decide,
    c6_diameter_order_invariance (fun _ => 0) specConfig 20 254 50 none (some 9) 60 120
      (by decide) (by decide) (by decide) (by decide) (by decide)⟩

/-- Claim C8: in `calculate_threshold_contrast`, (a) the sky-brightness
row index computed by the source's two `if` clamps equals
`clamp(int_sb - 4, 0, LTC_SIZE - 2)` where `int_sb` truncates toward
zero; (b) truncation toward zero maps `-0.5` to `0` while `floor` maps it
to `-1`; (c) in the non-extrapolation branch the result interpolates
between rows `row_a` and `row_b = row_a + 1` with fraction base the
truncated value `int_sb` (stated for inputs at or above the table start,
where the `LTC[0][0]` clamp leaves the input unchanged). -/
theorem c8_row_selection_truncation :
    (∀ sbb : ℚ, skyIndexA specConfig sbb =
      min (max (ratTrunc sbb - 4) 0) (specConfig.ltcSize - 2)) ∧
    (ratTrunc (-(1/2)) = 0 ∧ Rat.floor (-(1/2) : ℚ) = -1) ∧
    (∀ (log10 : ℚ → ℚ) (sbb ang : ℚ), 0 < ang →
      pyGet2 specConfig.LTC 0 0 ≤ sbb →
      (ratTrunc sbb : ℚ) < pyGet2 specConfig.LTC (specConfig.ltcSize - 1) 0 →
      calculate_threshold_contrast log10 specConfig sbb ang =
        .ok (clamp37
          (interpContrast specConfig (skyIndexA specConfig sbb)
              (angleIndexSel specConfig (log10 ang)) (angleFraction specConfig (log10 ang)) +
            (sbb - (ratTrunc sbb : ℚ)) *
              (interpContrast specConfig (skyIndexA specConfig sbb + 1)
                  (angleIndexSel specConfig (log10 ang)) (angleFraction specConfig (log10 ang)) -
                interpContrast specConfig (skyIndexA specConfig sbb)
                  (angleIndexSel specConfig (log10 ang)) (angleFraction specConfig (log10 ang)))))) := by
  refine ⟨?_, ⟨by decide, by decide⟩, ?_⟩
  · intro sbb
    simp only [skyIndexA]
    split_ifs <;> omega
  · intro log10 sbb ang hang hlo hhi
    simp only [calculate_threshold_contrast, pyLog10, if_neg (not_le.mpr hang)]
    rw [if_neg (specConfig_angleDen_ne (log10 ang))]
    rw [if_neg (not_lt.mpr hlo), if_neg (not_le.mpr hhi)]

/-- Witness for C8's interpolation clause at a concrete input
(`sbb = 10`, `ang = 1`, constant-zero `log10`). -/
theorem c8_row_selection_truncation_witness :
    (0:ℚ) < 1 ∧ pyGet2 specConfig.LTC 0 0 ≤ 10 ∧
    ((ratTrunc 10 : ℚ) < pyGet2 specConfig.LTC (specConfig.ltcSize - 1) 0) ∧
    calculate_threshold_contrast (fun _ => 0) specConfig 10 1 =
      .ok (clamp37
        (interpContrast specConfig (skyIndexA specConfig 10)
            (angleIndexSel specConfig 0) (angleFraction specConfig 0) +
          (10 - (ratTrunc 10 : ℚ)) *
            (interpContrast specConfig (skyIndexA specConfig 10 + 1)
                (angleIndexSel specConfig 0) (angleFraction specConfig 0) -
              interpContrast specConfig (skyIndexA specConfig 10)
                (angleIndexSel specConfig 0) (angleFraction specConfig 0)))) :=
  ⟨by decide, by decide, by decide,
    c8_row_selection_truncation.2.2 (fun _ => 0) 10 1 (by decide) (by decide) (by decide)⟩

/-- Real-arithmetic grounding for C9's numeric bounds: the argument of the
`log10` call in `surface_brightness(9, 300, 200)` is
`2827 * 5 * (200/60) = 141350/3`, and `10^4.67 < 141350/3 < 10^4.68`
because `10^467 < (141350/3)^100 < 10^468`.  Hence the real `log10` of the
argument lies in `[4.67, 4.68]`. -/
lemma c9_log10_arg_bounds :
    (10:ℚ)^(467:ℕ) < (141350/3 : ℚ)^(100:ℕ) ∧
    (141350/3 : ℚ)^(100:ℕ) < (10:ℚ)^(468:ℕ) := by
  constructor <;> norm_num

/-- Claim C9, counterexample: for any model of `log10` consistent with the
real value of `log10(141350/3) ≈ 4.6733` (grounded by
`c9_log10_arg_bounds`), `surface_brightness(9, 300, 200)` is about
`20.68`, not within `0.5` of the claimed `19.96`. -/
theorem c9_counterexample :
    ¬ (∀ log10 : ℚ → ℚ, 467/100 ≤ log10 (141350/3) → log10 (141350/3) ≤ 468/100 →
        ∀ r : ℚ, surface_brightness log10 9 300 200 = .ok r → |r - 1996/100| ≤ 1/2) := by
  intro hcl
  have h := hcl (fun _ => 467/100) (by norm_num) (by norm_num) (9 + 5/2 * (467/100))
    (by decide)
  rw [abs_le] at h
  have h2 := h.2
  norm_num at h2

/-- Claim C9, amended: `surface_brightness` computes exactly
`magnitude + 2.5 * log10(2827 * (d1/60) * (d2/60))` for positive
diameters; at `(9, 300, 200)` the argument is `141350/3` and, for any
model of `log10` consistent with the real logarithm there
(`4.67 ≤ log10(141350/3) ≤ 4.68`, grounded by `c9_log10_arg_bounds`), the
result lies in `[20.675, 20.7]` — approximately `20.68`, not `19.96`. -/
theorem c9_surface_brightness_formula (log10 : ℚ → ℚ) (m d1 d2 : ℚ)
    (h1 : 0 < d1) (h2 : 0 < d2) :
    surface_brightness log10 m d1 d2 =
      .ok (m + 5/2 * log10 (2827 * (d1/60) * (d2/60))) ∧
    (467/100 ≤ log10 (141350/3) → log10 (141350/3) ≤ 468/100 →
      ∀ r : ℚ, surface_brightness log10 9 300 200 = .ok r →
        827/40 ≤ r ∧ r ≤ 207/10) := by
  constructor
  · have harg : ¬ ((2827:ℚ) * (d1/60) * (d2/60) ≤ 0) := by
      have h60 : (0:ℚ) < 60 := by norm_num
      have := mul_pos (mul_pos (by norm_num : (0:ℚ) < 2827)
        (div_pos h1 h60)) (div_pos h2 h60)
      exact not_le.mpr this
    simp only [surface_brightness, if_neg (not_le.mpr h1), if_neg (not_le.mpr h2),
      pyLog10, if_neg harg]
  · intro hlo hhi r hr
    have harg : ((2827:ℚ) * (300/60) * (200/60)) = 141350/3 := by norm_num
    have hval : surface_brightness log10 9 300 200 =
        .ok (9 + 5/2 * log10 (141350/3)) := by
      have hpos : ¬ ((2827:ℚ) * (300/60) * (200/60) ≤ 0) := by norm_num
      simp only [surface_brightness, pyLog10]
      rw [if_neg (by norm_num), if_neg (by norm_num), if_neg hpos, harg]
    rw [hval] at hr
    have hreq : r = 9 + 5/2 * log10 (141350/3) := (Except.ok.inj hr).symm
    constructor <;> rw [hreq] <;> linarith

/-- Witness for C9's amended theorem at a concrete input (`log10` modelled
as the constant `4.67`, which satisfies the grounding bounds). -/
theorem c9_surface_brightness_formula_witness :
    (0:ℚ) < 300 ∧ (0:ℚ) < 200 ∧
    surface_brightness (fun _ => 467/100) 9 300 200 =
      .ok (9 + 5/2 * (467/100)) ∧
    827/40 ≤ 9 + 5/2 * (467/100 : ℚ) ∧ (9 + 5/2 * (467/100 : ℚ)) ≤ 207/10 :=
  ⟨by decide, by decide,
    (c9_surface_brightness_formula (fun _ => 467/100) 9 300 200
        (by decide) (by decide)).1,
    ((c9_surface_brightness_formula (fun _ => 467/100) 9 300 200
        (by decide) (by decide)).2 (by norm_num) (by norm_num) _
      (c9_surface_brightness_formula (fun _ => 467/100) 9 300 200
        (by decide) (by decide)).1).1,
    ((c9_surface_brightness_formula (fun _ => 467/100) 9 300 200
        (by decide) (by decide)).2 (by norm_num) (by norm_num) _
      (c9_surface_brightness_formula (fun _ => 467/100) 9 300 200
        (by decide) (by decide)).1).2⟩

/-- Claim C10: with an empty candidate list,
`optimal_detection_magnification` returns `0` without raising, for every
presence-combination of the optional arguments (positive when present) —
including all of `surf_brightness`, `magnitude` and both diameters absent,
a combination on which `contrast_reserve` itself always raises — because
the brightness-source and diameter checks run only inside
`contrast_reserve`, which the empty loop never calls. -/
theorem c10_empty_magnifications (log10 : ℚ → ℚ) (cfg : Config) (sqm D : ℚ)
    (sb magn d1 d2 : Option ℚ) (hD : 0 < D)
    (h1 : nonposOpt d1 = false) (h2 : nonposOpt d2 = false) :
    optimal_detection_magnification log10 cfg sqm D sb magn d1 d2 [] = .ok 0 ∧
    ∀ mg : ℚ, 0 < mg →
      contrast_reserve log10 cfg sqm D mg none none none none =
        .error "Object diameters must be provided to calculate contrast reserve" := by
  constructor
  · simp only [optimal_detection_magnification, if_neg (not_le.mpr hD), h1, h2,
      Bool.false_eq_true, if_false, List.any_nil, odmLoop]
  · intro mg hmg
    exact cr_missing_diameters log10 cfg sqm D mg none none hD hmg

/-- Witness for C10 at a concrete input (the all-absent combination). -/
theorem c10_empty_magnifications_witness :
    (0:ℚ) < 200 ∧
    (optimal_detection_magnification (fun _ => 0) specConfig 21 200 none none none none [] = .ok 0 ∧
    ∀ mg : ℚ, 0 < mg →
      contrast_reserve (fun _ => 0) specConfig 21 200 mg none none none none =
        .error "Object diameters must be provided to calculate contrast reserve") :=
  ⟨by decide,
    c10_empty_magnifications (fun _ => 0) specConfig 21 200 none none none none
      (by decide) rfl rfl⟩
